import Mathlib

/-!
Shallow embedding of the two scripts of the `sysops` repository:
`scripts/cloud-cost-analyzer.py` and `scripts/infrastructure-validator.py`.

Each Python function that a claim touches is translated into an executable
Lean definition over explicit data:

* cloud API responses and file reads become values of `Except String _`
  (an `error` models a raised Python exception reaching that call site);
* `try ... except` blocks become pattern matches on those `Except` values;
* process state such as the working directory is threaded explicitly;
* printing to stdout is elided; only the data the scripts accumulate
  (`self.findings`, `self.results`, the exported JSON object, the exit
  code) is modelled.
-/

namespace Sysops

/-- Data model of one cost-analysis finding, the dictionaries appended to
`self.findings` in `cloud-cost-analyzer.py` (all five fields are strings). -/
structure Finding where
  resource : String
  type : String
  issue : String
  recommendation : String
  potential_savings : String
deriving DecidableEq

/-- One EC2 instance as read from a `describe_instances` reservation:
the three fields the analyzer consults (`InstanceId`, `InstanceType`,
`State.Name`). -/
structure Ec2Instance where
  instanceId : String
  instanceType : String
  state : String
deriving DecidableEq

/-- One reservation from `describe_instances`, holding its instances. -/
structure Reservation where
  instances : List Ec2Instance
deriving DecidableEq

/-- `get_average_cpu`: given the CloudWatch response (the list of
`Average` values of the returned datapoints, or an exception), return the
mean when datapoints exist, `none` when the list is empty, and `none` on
any exception (the bare `except: return None`). Metric values are modelled
as rationals. -/
def get_average_cpu (resp : Except String (List ℚ)) : Option ℚ :=
  match resp with
  | .error _ => none
  | .ok [] => none
  | .ok ds => some ((ds.foldl (· + ·) 0) / (ds.length : ℚ))

/-- Rendering of the average-CPU percentage in the low-utilization message,
modelling Python's fixed-point format with one decimal digit. -/
def fmtCpu (q : ℚ) : String :=
  let tenths : Int := round (q * 10)
  toString (tenths / 10) ++ "." ++ toString (tenths % 10).natAbs

/-- Decidable list-prefix test used by the string tests below. -/
def listHasPre {α : Type} [DecidableEq α] : List α → List α → Bool
  | [], _ => true
  | _ :: _, [] => false
  | a :: as, b :: bs => if a = b then listHasPre as bs else false

/-- Decidable contiguous-sublist test. -/
def listHasSub {α : Type} [DecidableEq α] (p : List α) : List α → Bool
  | [] => listHasPre p []
  | b :: bs => listHasPre p (b :: bs) || listHasSub p bs

/-- Python's `s.startswith(pre)` test, over the character lists. -/
def strStarts (s pre : String) : Bool := listHasPre pre.toList s.toList

/-- Python's `pat in s` substring test on strings. -/
def strHasSub (s pat : String) : Bool := listHasSub pat.toList s.toList

/-- Whether an instance type is flagged by the old-generation rule:
`instance_type.startswith(('t2', 'm4', 'c4'))`. -/
def oldGenType (t : String) : Bool :=
  strStarts t "t2" || strStarts t "m4" || strStarts t "c4"

/-- The upgrade target named by the old-generation rule:
`instance_type.replace('t2','t3').replace('m4','m5').replace('c4','c5')`. -/
def newGenType (t : String) : String :=
  ((t.replace "t2" "t3").replace "m4" "m5").replace "c4" "c5"

/-- The findings the loop body of `analyze_ec2_instances` appends for one
instance, in source order: the stopped-instance rule, the old-generation
rule, then the low-CPU rule (the last one only for running instances with
a known average below 10). `cw` is the CloudWatch response for a given
instance id, fed through `get_average_cpu`. -/
def instanceFindings (cw : String → Except String (List ℚ)) (i : Ec2Instance) :
    List Finding :=
  (if i.state = "stopped" then
    [{ resource := i.instanceId, type := "EC2",
       issue := "Stopped instance still incurring EBS costs",
       recommendation := "Terminate if not needed or create AMI and terminate",
       potential_savings := "Low" }]
   else [])
  ++ (if oldGenType i.instanceType then
    [{ resource := i.instanceId, type := "EC2",
       issue := "Old generation instance type: " ++ i.instanceType,
       recommendation := "Upgrade to " ++ newGenType i.instanceType ++
         " for better price/performance",
       potential_savings := "Medium" }]
   else [])
  ++ (if i.state = "running" then
    match get_average_cpu (cw i.instanceId) with
    | some avg =>
        if avg < 10 then
          [{ resource := i.instanceId, type := "EC2",
             issue := "Low CPU utilization: " ++ fmtCpu avg ++ "%",
             recommendation := "Consider downsizing or terminating",
             potential_savings := "High" }]
        else []
    | none => []
   else [])

/-- `analyze_ec2_instances`: the whole body is wrapped in
`try ... except Exception`, so an exception from `describe_instances`
(modelled as an `error` input) is caught and contributes no findings.
Otherwise every instance of every reservation is classified in order. -/
def analyze_ec2_instances (api : Except String (List Reservation))
    (cw : String → Except String (List ℚ)) : List Finding :=
  match api with
  | .error _ => []
  | .ok rs =>
      rs.foldl (fun acc r =>
        r.instances.foldl (fun a i => a ++ instanceFindings cw i) acc) []

/-- One Elastic IP address record from `describe_addresses`: presence of
the `AssociationId` key and of the `PublicIp` key. -/
structure Address where
  associationId : Option String
  publicIp : Option String
deriving DecidableEq

/-- `analyze_elastic_ips`: the whole body is wrapped in
`try ... except Exception` (an `error` input yields no findings); each
address lacking `AssociationId` yields one unassociated-EIP finding whose
resource is `PublicIp` when present and `Unknown` otherwise. -/
def analyze_elastic_ips (api : Except String (List Address)) : List Finding :=
  match api with
  | .error _ => []
  | .ok addrs =>
      addrs.foldl (fun acc a =>
        if a.associationId.isNone then
          acc ++ [{ resource := a.publicIp.getD "Unknown", type := "EIP",
                    issue := "Unassociated Elastic IP",
                    recommendation := "Release if not needed",
                    potential_savings := "~$3.60/month" }]
        else acc) []

/-- The grouping step of `generate_report`: a `defaultdict(list)` to which
each finding is appended under its `type` key, in iteration order. The
mapping is modelled as a function from category to its accumulated list. -/
def generate_report_by_type (findings : List Finding) : String → List Finding :=
  findings.foldl
    (fun m f => fun t => if f.type == t then m t ++ [f] else m t)
    (fun _ => [])

/-- Exit status of the cost analyzer's `main`: it runs the analyses, the
report and the optional export and returns without ever calling
`sys.exit`, so the process exits 0 whatever findings were accumulated. -/
def cloud_cost_main_exit_code (_findings : List Finding) : Nat := 0

/-- JSON values, as far as the analyzer's export needs them: strings,
integers, arrays and objects with ordered key/value pairs (`json.dump`
writes dict entries in insertion order and `json.load` reads them back
unchanged, so the dumped file is modelled by the value itself). -/
inductive JVal where
  | str : String → JVal
  | num : Int → JVal
  | arr : List JVal → JVal
  | obj : List (String × JVal) → JVal

/-- JSON encoding of one finding dictionary. -/
def encodeFinding (f : Finding) : JVal :=
  .obj [("resource", .str f.resource), ("type", .str f.type),
        ("issue", .str f.issue), ("recommendation", .str f.recommendation),
        ("potential_savings", .str f.potential_savings)]

/-- `export_json`: the object the analyzer dumps to the export file, with
`analysis_date` the current timestamp and `region` the analyzer's region. -/
def export_json (analysisDate region : String) (findings : List Finding) : JVal :=
  .obj [("analysis_date", .str analysisDate),
        ("region", .str region),
        ("total_findings", .num findings.length),
        ("findings", .arr (findings.map encodeFinding))]

/-- Top-level key list of a JSON object. -/
def jsonTopKeys : JVal → List String
  | .obj kvs => kvs.map Prod.fst
  | _ => []

/-- First-match key lookup in a JSON object's pair list. -/
def jLookup (k : String) : List (String × JVal) → Option JVal
  | [] => none
  | (k0, v) :: rest => if k0 = k then some v else jLookup k rest

/-- Projection of a JSON string value. -/
def asStr : JVal → Option String
  | .str s => some s
  | _ => none

/-- Deserialization of one finding from its JSON object. -/
def decodeFinding : JVal → Option Finding
  | .obj kvs => do
      let r ← jLookup "resource" kvs >>= asStr
      let t ← jLookup "type" kvs >>= asStr
      let i ← jLookup "issue" kvs >>= asStr
      let rc ← jLookup "recommendation" kvs >>= asStr
      let p ← jLookup "potential_savings" kvs >>= asStr
      some { resource := r, type := t, issue := i,
             recommendation := rc, potential_savings := p }
  | _ => none

/-- Deserialization of a list of finding objects, failing if any entry
fails. -/
def decodeFindingsList : List JVal → Option (List Finding)
  | [] => some []
  | j :: rest => do
      let f ← decodeFinding j
      let fs ← decodeFindingsList rest
      some (f :: fs)

/-- Deserialization of the `findings` array of an exported document. -/
def decodeExportFindings (j : JVal) : Option (List Finding) :=
  match j with
  | .obj kvs =>
      match jLookup "findings" kvs with
      | some (.arr items) => decodeFindingsList items
      | _ => none
  | _ => none

/-- The `total_findings` field of an exported document. -/
def exportTotal (j : JVal) : Option JVal :=
  match j with
  | .obj kvs => jLookup "total_findings" kvs
  | _ => none

/-! ## Infrastructure validator (`infrastructure-validator.py`) -/

/-- One category of `self.results`: ordered lists of passed, failed and
warning entries. -/
structure CatResults where
  passed : List String
  failed : List String
  warnings : List String
deriving DecidableEq

/-- Empty category results, the state `__init__` builds. -/
def CatResults.empty : CatResults := ⟨[], [], []⟩

/-- Concatenation of two category-result contributions, category-wise. -/
def CatResults.append (a b : CatResults) : CatResults :=
  ⟨a.passed ++ b.passed, a.failed ++ b.failed, a.warnings ++ b.warnings⟩

/-- The validator's `self.results`: one `CatResults` per category. -/
structure ValidatorResults where
  terraform : CatResults
  ansible : CatResults
  kubernetes : CatResults
deriving DecidableEq

/-- Process state threaded through a validator run: the accumulated
results and the process working directory (mutated by `os.chdir`). -/
structure ValRun where
  results : ValidatorResults
  cwd : String
deriving DecidableEq

/-- Initial run state: empty results, the working directory the process
was started in. -/
def ValRun.init (cwd : String) : ValRun :=
  ⟨⟨CatResults.empty, CatResults.empty, CatResults.empty⟩, cwd⟩

def addTfPassed (st : ValRun) (m : String) : ValRun :=
  { st with results := { st.results with terraform :=
      { st.results.terraform with passed := st.results.terraform.passed ++ [m] } } }

def addTfFailed (st : ValRun) (m : String) : ValRun :=
  { st with results := { st.results with terraform :=
      { st.results.terraform with failed := st.results.terraform.failed ++ [m] } } }

def addTfWarn (st : ValRun) (m : String) : ValRun :=
  { st with results := { st.results with terraform :=
      { st.results.terraform with warnings := st.results.terraform.warnings ++ [m] } } }

deriving instance DecidableEq for Except

/-- One `.tf` file found by `rglob`, with the outcome of `read_text()`
(an `error` models a raised exception, e.g. a permission or decoding
error; the filesystem is fixed for the run, so repeated reads agree). -/
structure TfFile where
  name : String
  content : Except String String
deriving DecidableEq

/-- Environment of the external-effect steps of `validate_terraform`:
the `terraform fmt -check` outcome (`none` models `FileNotFoundError`,
i.e. the binary is missing), whether `os.chdir(path)` succeeds, and the
`terraform validate` outcome (an `error` models a raised exception,
caught by the enclosing `except`). -/
structure TfEnv where
  fmtOutcome : Option Bool
  chdirOk : Bool
  validateOutcome : Except String Bool
deriving DecidableEq

/-- Return status of a `validate_*` method. -/
inductive TfStatus where
  | skipped
  | completed
deriving DecidableEq

/-- Short-circuiting `any(needle in f.read_text() for f in files)`:
files are read in order until a match; a read that raises propagates. -/
def anyFileContains (needle : String) : List TfFile → Except String Bool
  | [] => .ok false
  | f :: rest => do
      let c ← f.content
      if strHasSub c needle then pure true else anyFileContains needle rest

/-- Check 3 of `validate_terraform`: for each file, read it and warn when
it mentions `resource ` but never `tags`; a read that raises propagates. -/
def tagWarnings : List TfFile → Except String (List String)
  | [] => .ok []
  | f :: rest => do
      let c ← f.content
      let ws ← tagWarnings rest
      if strHasSub c "resource " && !(strHasSub c "tags") then
        pure ((f.name ++ ": Add tags") :: ws)
      else
        pure ws

/-- Resolution of a possibly relative path against the current working
directory, as the OS does for `Path(p)` and `open(p)`. -/
def resolvePath (cwd p : String) : String :=
  if strStarts p "/" then p else cwd ++ "/" ++ p

/-- `validate_terraform`. Checks 1-3 read the `.tf` files with no
enclosing `try`, so a raising read propagates out of the function (an
`error` result). Check 4 records formatting results when the binary
exists. Check 5 runs `os.chdir(path)` and `terraform validate` inside a
`try` whose `except` only prints, so the working directory stays changed
(resolved against the current one) whenever `chdir` succeeded, and is
never restored. The per-check console output (`checks`) is elided; the
`self.results` entries mirror it. -/
def validate_terraform (path : String) (tfFiles : List TfFile) (env : TfEnv)
    (st : ValRun) : Except String (ValRun × TfStatus) :=
  if tfFiles.isEmpty then .ok (st, .skipped)
  else do
    let hasBackend ← anyFileContains "backend" tfFiles
    let st := if hasBackend then addTfPassed st "Remote state configured"
              else addTfFailed st "Missing remote state backend"
    let hasVers ← anyFileContains "required_providers" tfFiles
    let st := if hasVers then addTfPassed st "Provider versions pinned"
              else addTfWarn st "Pin provider versions"
    let tags ← tagWarnings tfFiles
    let st := tags.foldl addTfWarn st
    let st := match env.fmtOutcome with
      | some true => addTfPassed st "Formatting correct"
      | some false => addTfFailed st "Run terraform fmt"
      | none => st
    let st :=
      if env.chdirOk then
        let st := { st with cwd := resolvePath st.cwd path }
        match env.validateOutcome with
        | .ok true => addTfPassed st "Configuration valid"
        | .ok false => addTfFailed st "Configuration invalid"
        | .error _ => st
      else st
    .ok (st, .completed)

/-- Presence data of the `resources` mapping of one container: whether it
has a `limits` key. -/
structure KResources where
  limits : Bool
deriving DecidableEq

/-- One container of a pod template, with the keys the Kubernetes checks
read: `resources` (present or not), and presence of `livenessProbe`,
`readinessProbe` and `securityContext`. -/
structure KContainer where
  resources : Option KResources
  livenessProbe : Bool
  readinessProbe : Bool
  securityContext : Bool
deriving DecidableEq

/-- One parsed YAML document of a manifest. `kind` is `none` when the
document is empty or lacks a `kind` key (`if not doc or 'kind' not in
doc: continue`). `metadataName` models `metadata.name` (it only feeds the
printed check messages, not the recorded results).
`templateContainers` is `none` when any of `spec`, `spec.template`,
`spec.template.spec` or its `containers` key is missing, which the chained
`.get(..., {})` calls default to an empty container list. -/
structure K8sDoc where
  kind : Option String
  metadataName : Option String
  templateContainers : Option (List KContainer)
deriving DecidableEq

/-- `'resources' in c and 'limits' in c.get('resources', {})`. -/
def containerHasLimits (c : KContainer) : Bool :=
  match c.resources with
  | some r => r.limits
  | none => false

/-- The workload kinds the per-document checks apply to. -/
def workloadKinds : List String := ["Deployment", "StatefulSet", "DaemonSet"]

/-- The `self.results['kubernetes']` entries one document contributes: a
document without `kind` is skipped; for a workload kind the resource-limits
check (`all` over the containers), the health-check check (`all`) and the
security-context check (`any`) each record one passed, failed or warning
entry keyed by the manifest's file name. -/
def validateKubernetesDoc (mname : String) (doc : K8sDoc) : CatResults :=
  match doc.kind with
  | none => CatResults.empty
  | some kind =>
      if kind ∈ workloadKinds then
        let containers := doc.templateContainers.getD []
        let r1 := if containers.all containerHasLimits then
            ({ passed := [mname ++ ": Resource limits"], failed := [],
               warnings := [] } : CatResults)
          else
            { passed := [], failed := [mname ++ ": Add resource limits"],
              warnings := [] }
        let r2 := if containers.all (fun c => c.livenessProbe || c.readinessProbe) then
            ({ passed := [mname ++ ": Health checks"], failed := [],
               warnings := [] } : CatResults)
          else
            { passed := [], failed := [],
              warnings := [mname ++ ": Add health checks"] }
        let r3 := if containers.any (fun c => c.securityContext) then
            ({ passed := [mname ++ ": Security context"], failed := [],
               warnings := [] } : CatResults)
          else
            { passed := [], failed := [],
              warnings := [mname ++ ": Add security context"] }
        r1.append (r2.append r3)
      else CatResults.empty

/-- Failure modes of parsing one manifest: a `yaml.YAMLError` (recorded as
a failed entry) or any other exception (only printed). -/
inductive ParseErr where
  | yamlError : String → ParseErr
  | otherError : String → ParseErr
deriving DecidableEq

/-- One manifest file: `yaml.safe_load_all` yields `docs` lazily; when the
iteration raises midway, the documents already yielded were processed and
`parseFailure` holds the error that ended it. -/
structure KManifest where
  name : String
  docs : List K8sDoc
  parseFailure : Option ParseErr
deriving DecidableEq

/-- The `try`/`except` body of `validate_kubernetes` for one manifest:
process the yielded documents in order; a `YAMLError` appends a failed
entry, any other exception only prints a warning. -/
def processKManifest (m : KManifest) : CatResults :=
  let base := m.docs.foldl
    (fun acc d => acc.append (validateKubernetesDoc m.name d)) CatResults.empty
  match m.parseFailure with
  | some (.yamlError _) =>
      base.append { passed := [], failed := [m.name ++ ": YAML error"], warnings := [] }
  | some (.otherError _) => base
  | none => base

/-- `validate_kubernetes`: skip when no manifest was found, otherwise fold
the per-manifest contributions into the kubernetes results in order. -/
def validate_kubernetes (manifests : List KManifest) : TfStatus × CatResults :=
  if manifests.isEmpty then (.skipped, CatResults.empty)
  else (.completed,
    manifests.foldl (fun acc m => acc.append (processKManifest m)) CatResults.empty)

/-- `sum(len(r['failed']) for r in validator.results.values())`. -/
def totalFailures (r : ValidatorResults) : Nat :=
  r.terraform.failed.length + r.ansible.failed.length + r.kubernetes.failed.length

/-- `sys.exit(1 if total_failures > 0 else 0)` of the validator's `main`. -/
def infra_exit_code (r : ValidatorResults) : Nat :=
  if totalFailures r > 0 then 1 else 0

/-- Observable path data of one `main` run of the validator: the
directories the Ansible and Kubernetes enumerations resolve to, the file
the optional JSON output resolves to, and the final working directory. -/
structure RunTrace where
  ansibleDir : String
  k8sDir : String
  jsonOutFile : String
  finalCwd : String
deriving DecidableEq

/-- Path-relevant sequencing of the validator's `main`: run
`validate_terraform` on the Terraform path, then record against which
directory `Path(args.ansible_path).rglob` and
`Path(args.k8s_path).rglob` enumerate and where a relative
`--json-output` file lands. `validate_ansible` contains no `chdir` and
so leaves the working directory unchanged; its result entries do not
matter to any path claim and are elided here. An exception escaping
`validate_terraform` aborts `main` (an `error` result). -/
def mainRun (tfPath ansiblePath k8sPath jsonOut : String)
    (tfFiles : List TfFile) (env : TfEnv) (kManifests : List KManifest)
    (initCwd : String) : Except String RunTrace := do
  let st0 := ValRun.init initCwd
  let (st1, _) ← validate_terraform tfPath tfFiles env st0
  let ansibleDir := resolvePath st1.cwd ansiblePath
  let k8sDir := resolvePath st1.cwd k8sPath
  let (_, kres) := validate_kubernetes kManifests
  let st2 := { st1 with results := { st1.results with kubernetes := kres } }
  let outFile := resolvePath st2.cwd jsonOut
  .ok { ansibleDir := ansibleDir, k8sDir := k8sDir,
        jsonOutFile := outFile, finalCwd := st2.cwd }

/-- The exit-code contract in the spec's words: the process exit code is 1
exactly when at least one failed entry exists. Stated as a second,
spec-side definition, to be compared with what each script's `main`
computes. -/
def specExitCodeContract (exitCode : Nat) (anyFailed : Bool) : Prop :=
  exitCode = 1 ↔ anyFailed = true

/-- The claim's reading of a "failed entry" for the cost analyzer, whose
report categories contain exactly its findings: some finding exists. -/
def analyzerAnyFailedEntry (findings : List Finding) : Bool :=
  !findings.isEmpty

/-! ## Helper lemmas -/

/-- Inversion of a successful monadic bind over `Except`. -/
theorem except_bind_ok {ε α β : Type} {x : Except ε α} {f : α → Except ε β} {r : β}
    (h : x >>= f = Except.ok r) : ∃ a, x = Except.ok a ∧ f a = Except.ok r := by
  cases x with
  | error e => exact absurd h (by simp [Bind.bind, Except.bind])
  | ok a => exact ⟨a, rfl, h⟩

@[simp]
theorem addTfPassed_cwd (st : ValRun) (m : String) : (addTfPassed st m).cwd = st.cwd := rfl

@[simp]
theorem addTfFailed_cwd (st : ValRun) (m : String) : (addTfFailed st m).cwd = st.cwd := rfl

@[simp]
theorem addTfWarn_cwd (st : ValRun) (m : String) : (addTfWarn st m).cwd = st.cwd := rfl

@[simp]
theorem foldl_addTfWarn_cwd : ∀ (ws : List String) (st : ValRun),
    (ws.foldl addTfWarn st).cwd = st.cwd
  | [], _ => rfl
  | w :: ws, st => by
      rw [List.foldl_cons, foldl_addTfWarn_cwd ws]
      rfl

@[simp]
theorem ite_cwd (c : Prop) [Decidable c] (a b : ValRun) :
    (if c then a else b).cwd = if c then a.cwd else b.cwd := by
  split <;> rfl

/-- The working directory `validate_terraform` leaves behind: when `.tf`
files were found, no read raised, and `os.chdir` succeeded, the process
working directory has been changed to the Terraform path (resolved
against the previous working directory) and is not restored. -/
theorem validate_terraform_cwd (p : String) (tfFiles : List TfFile) (env : TfEnv)
    (st st1 : ValRun) (s : TfStatus)
    (hne : tfFiles.isEmpty = false) (hch : env.chdirOk = true)
    (hok : validate_terraform p tfFiles env st = Except.ok (st1, s)) :
    st1.cwd = resolvePath st.cwd p := by
  unfold validate_terraform at hok
  rw [hne] at hok
  simp only [Bool.false_eq_true, if_false] at hok
  obtain ⟨b1, h1, hok⟩ := except_bind_ok hok
  obtain ⟨b2, h2, hok⟩ := except_bind_ok hok
  obtain ⟨tags, h3, hok⟩ := except_bind_ok hok
  rw [hch] at hok
  simp only [Except.ok.injEq, Prod.mk.injEq] at hok
  obtain ⟨hst, _⟩ := hok
  subst hst
  cases env.fmtOutcome with
  | none =>
      cases env.validateOutcome with
      | error e => simp
      | ok b3 => cases b3 <;> simp
  | some b4 =>
      cases b4 <;>
        (cases env.validateOutcome with
          | error e => simp
          | ok b3 => cases b3 <;> simp)

/-- A concrete finding of the stopped-instance rule, used as example
input. -/
def exampleStoppedFinding : Finding :=
  { resource := "i-0abc123", type := "EC2",
    issue := "Stopped instance still incurring EBS costs",
    recommendation := "Terminate if not needed or create AMI and terminate",
    potential_savings := "Low" }

/-! ## Claims -/

/-- C1 (amended): the infrastructure validator exits 1 exactly when some
category holds at least one failed entry; the cloud cost analyzer's
`main`, by contrast, never calls `sys.exit` and exits 0 no matter which
findings were accumulated. -/
theorem exit_code_iff_failed_entries (r : ValidatorResults) (fs : List Finding) :
    (infra_exit_code r = 1 ↔
      (r.terraform.failed ≠ [] ∨ r.ansible.failed ≠ [] ∨ r.kubernetes.failed ≠ []))
    ∧ cloud_cost_main_exit_code fs = 0 := by
  refine ⟨?_, rfl⟩
  unfold infra_exit_code
  rcases Nat.eq_zero_or_pos (totalFailures r) with h | h
  · rw [if_neg (by omega)]
    constructor
    · intro h0
      exact absurd h0 (by decide)
    · intro hd
      exfalso
      unfold totalFailures at h
      rcases hd with h1 | h1 | h1 <;>
        exact h1 (List.length_eq_zero.mp (by omega))
  · rw [if_pos h]
    constructor
    · intro _
      by_contra hc
      push_neg at hc
      obtain ⟨h1, h2, h3⟩ := hc
      simp [totalFailures, h1, h2, h3] at h
    · intro _
      rfl

/-- C1 counterexample: a run of the cost analyzer that produced one
finding (so, on the claim's reading, a failed entry exists in its
categories) still exits 0, so the claimed exit-code biconditional fails
for the cloud cost analyzer. -/
theorem analyzer_exit_code_counterexample :
    ¬ specExitCodeContract (cloud_cost_main_exit_code [exampleStoppedFinding])
        (analyzerAnyFailedEntry [exampleStoppedFinding]) := by
  unfold specExitCodeContract
  decide

/-- C2 (amended): an exception from the cloud API is caught inside
`analyze_ec2_instances` and `analyze_elastic_ips` (no findings from that
sub-check), and a YAML error while parsing one manifest is caught inside
`validate_kubernetes` and surfaced as that file's failed entry; but
`validate_terraform` does not guard its `.tf` reads, so a raising read
propagates out of it as an uncaught exception. -/
theorem sub_check_error_containment (e msg p fname : String)
    (cw : String → Except String (List ℚ)) (env : TfEnv) (st : ValRun) :
    analyze_ec2_instances (Except.error e) cw = []
    ∧ analyze_elastic_ips (Except.error e) = []
    ∧ (processKManifest ⟨fname, [], some (ParseErr.yamlError msg)⟩).failed
        = [fname ++ ": YAML error"]
    ∧ validate_terraform p [⟨fname, Except.error msg⟩] env st = Except.error msg :=
  ⟨rfl, rfl, rfl, rfl⟩

/-- C2 counterexample: a concrete run of `validate_terraform` on a
directory holding one `.tf` file whose read raises does not return
normally; the exception escapes the function. -/
theorem validate_terraform_read_error_counterexample :
    validate_terraform "modules" [⟨"main.tf", Except.error "PermissionError"⟩]
        ⟨some true, true, Except.ok true⟩ (ValRun.init "/work")
      = Except.error "PermissionError" := rfl

/-- C3 (amended): missing fields raise no error, and a document without a
`kind` key is skipped with no entries; but the Elastic-IP rule fires
precisely when the association field is absent (one finding per such
address, not zero), and a workload document whose template fields are
missing gets passed entries from the two `all`-quantified checks and a
warning from the `any`-quantified security-context check. -/
theorem missing_field_rule_behavior (a : Address) (mname : String)
    (mdName : Option String) (tc : Option (List KContainer)) :
    analyze_elastic_ips (Except.ok [a])
      = (if a.associationId.isNone then
          [{ resource := a.publicIp.getD "Unknown", type := "EIP",
             issue := "Unassociated Elastic IP",
             recommendation := "Release if not needed",
             potential_savings := "~$3.60/month" }]
        else [])
    ∧ validateKubernetesDoc mname ⟨none, mdName, tc⟩ = CatResults.empty
    ∧ validateKubernetesDoc mname ⟨some "Deployment", mdName, none⟩
      = { passed := [mname ++ ": Resource limits", mname ++ ": Health checks"],
          failed := [],
          warnings := [mname ++ ": Add security context"] } := by
  refine ⟨?_, rfl, rfl⟩
  rcases ha : a.associationId with _ | v <;>
    simp [analyze_elastic_ips, ha]

/-- C3 counterexample: an Elastic IP descriptor lacking its association
field produces one finding from the unassociated-EIP rule, not zero. -/
theorem eip_missing_field_counterexample :
    analyze_elastic_ips (Except.ok [⟨none, some "203.0.113.7"⟩]) ≠ [] := by
  decide

/-- The `findings` field of an exported document. -/
def exportFindingsField (j : JVal) : Option JVal :=
  match j with
  | .obj kvs => jLookup "findings" kvs
  | _ => none

/-- C4 (amended): the exported JSON object has exactly the keys
`analysis_date`, `region`, `total_findings` and `findings` — the scope
key is spelled `region`, not `scope` — and `findings` holds the encoded
list of Finding records. -/
theorem export_json_top_keys (d r : String) (fs : List Finding) :
    jsonTopKeys (export_json d r fs)
      = ["analysis_date", "region", "total_findings", "findings"]
    ∧ exportFindingsField (export_json d r fs)
      = some (JVal.arr (fs.map encodeFinding)) :=
  ⟨rfl, rfl⟩

/-- C4 counterexample: the exported object of a concrete run has no
`scope` key; its second key is `region`. -/
theorem export_json_scope_key_counterexample :
    jsonTopKeys (export_json "2026-10-12T00:00:00" "us-east-1" []) ≠
      ["analysis_date", "scope", "total_findings", "findings"] := by
  decide

/-- Decoding inverts the encoding of one finding. -/
theorem decodeFinding_encodeFinding (f : Finding) :
    decodeFinding (encodeFinding f) = some f := rfl

/-- Decoding inverts the encoding of a finding list. -/
theorem decodeFindingsList_map_encode :
    ∀ fs : List Finding, decodeFindingsList (fs.map encodeFinding) = some fs
  | [] => rfl
  | f :: fs => by
      simp [decodeFindingsList, decodeFinding_encodeFinding,
        decodeFindingsList_map_encode fs]

/-- C5: deserializing the exported document yields back exactly the
in-memory findings, its `total_findings` field equals their number, and
in particular the multiset of categories (the `type` fields) of the
decoded findings equals that of the in-memory result. -/
theorem export_json_roundtrip (d r : String) (fs : List Finding) :
    decodeExportFindings (export_json d r fs) = some fs
    ∧ exportTotal (export_json d r fs) = some (JVal.num fs.length)
    ∧ ((decodeExportFindings (export_json d r fs)).getD []).map (fun f => f.type)
        = fs.map (fun f => f.type) := by
  have h1 : decodeExportFindings (export_json d r fs) = some fs :=
    decodeFindingsList_map_encode fs
  exact ⟨h1, rfl, by rw [h1]; rfl⟩

/-- C6: for every instance in `stopped` state, the EC2 analysis emits
exactly one finding whose issue is the stopped-instance message with a
`Low` savings tag, namely the finding of the stopped-instance rule (the
old-generation rule tags `Medium` and the low-CPU rule `High`, and the
CPU rule only fires for running instances). -/
theorem stopped_instance_one_finding (cw : String → Except String (List ℚ))
    (i : Ec2Instance) (h : i.state = "stopped") :
    (analyze_ec2_instances (Except.ok [⟨[i]⟩]) cw).filter
        (fun f => f.potential_savings == "Low"
          && f.issue == "Stopped instance still incurring EBS costs")
      = [{ resource := i.instanceId, type := "EC2",
           issue := "Stopped instance still incurring EBS costs",
           recommendation := "Terminate if not needed or create AMI and terminate",
           potential_savings := "Low" }] := by
  cases hg : oldGenType i.instanceType <;>
    simp [analyze_ec2_instances, instanceFindings, h, hg]

/-- C6 witness: a concrete stopped instance. -/
theorem stopped_instance_one_finding_witness :
    (⟨"i-0abc123", "m5.large", "stopped"⟩ : Ec2Instance).state = "stopped"
    ∧ (analyze_ec2_instances
          (Except.ok [⟨[⟨"i-0abc123", "m5.large", "stopped"⟩]⟩])
          (fun _ => Except.error "no CloudWatch data")).filter
        (fun f => f.potential_savings == "Low"
          && f.issue == "Stopped instance still incurring EBS costs")
      = [exampleStoppedFinding] :=
  ⟨rfl, stopped_instance_one_finding (fun _ => Except.error "no CloudWatch data")
    ⟨"i-0abc123", "m5.large", "stopped"⟩ rfl⟩

/-- C7: a workload document (Deployment, StatefulSet or DaemonSet) with
some container lacking `resources.limits` gets a failing
`Add resource limits` entry from `validate_kubernetes`; when every
container has limits it gets the passed `Resource limits` entry and no
failing one. -/
theorem workload_resource_limits (mname k : String) (doc : K8sDoc)
    (hk : doc.kind = some k) (hmem : k ∈ workloadKinds) :
    ((∃ c ∈ doc.templateContainers.getD [], containerHasLimits c = false) →
      (mname ++ ": Add resource limits")
        ∈ ((validate_kubernetes [⟨mname, [doc], none⟩]).2).failed)
    ∧ ((∀ c ∈ doc.templateContainers.getD [], containerHasLimits c = true) →
      (mname ++ ": Resource limits")
        ∈ ((validate_kubernetes [⟨mname, [doc], none⟩]).2).passed
      ∧ (mname ++ ": Add resource limits")
        ∉ ((validate_kubernetes [⟨mname, [doc], none⟩]).2).failed) := by
  have hres : (validate_kubernetes [⟨mname, [doc], none⟩]).2
      = validateKubernetesDoc mname doc := rfl
  rw [hres]
  unfold validateKubernetesDoc
  rw [hk]
  simp only [hmem, if_true]
  constructor
  · rintro ⟨c, hc, hbad⟩
    have hall : (doc.templateContainers.getD []).all containerHasLimits = false := by
      by_contra hcon
      rw [Bool.not_eq_false] at hcon
      exact absurd (List.all_eq_true.mp hcon c hc) (by simp [hbad])
    cases h2 : (doc.templateContainers.getD []).all
        (fun c => c.livenessProbe || c.readinessProbe) <;>
      cases h3 : (doc.templateContainers.getD []).any
          (fun c => c.securityContext) <;>
      simp [hall, h2, h3, CatResults.append]
  · intro hgood
    have hall : (doc.templateContainers.getD []).all containerHasLimits = true :=
      List.all_eq_true.mpr hgood
    cases h2 : (doc.templateContainers.getD []).all
        (fun c => c.livenessProbe || c.readinessProbe) <;>
      cases h3 : (doc.templateContainers.getD []).any
          (fun c => c.securityContext) <;>
      simp [hall, h2, h3, CatResults.append]

/-- A container with no `resources` key at all. -/
def exampleBareContainer : KContainer :=
  { resources := none, livenessProbe := false, readinessProbe := false,
    securityContext := false }

/-- A Deployment document whose single container lacks resource limits. -/
def exampleNoLimitsDoc : K8sDoc :=
  { kind := some "Deployment", metadataName := some "web",
    templateContainers := some [exampleBareContainer] }

/-- C7 witness: a concrete Deployment manifest with a limit-less
container yields the failing resource-limits entry. -/
theorem workload_resource_limits_witness :
    ("app.yaml" ++ ": Add resource limits")
      ∈ ((validate_kubernetes [⟨"app.yaml", [exampleNoLimitsDoc], none⟩]).2).failed :=
  (workload_resource_limits "app.yaml" "Deployment" exampleNoLimitsDoc rfl
      (by decide)).1
    ⟨exampleBareContainer, by decide, rfl⟩

/-- Unfolding the grouping fold of `generate_report` against an arbitrary
accumulator. -/
theorem groups_foldl_eq (t : String) :
    ∀ (fs : List Finding) (m : String → List Finding),
      fs.foldl (fun g f => fun u => if f.type == u then g u ++ [f] else g u) m t
        = m t ++ fs.filter (fun f => f.type == t)
  | [], m => by simp
  | f :: fs, m => by
      rw [List.foldl_cons, groups_foldl_eq t fs, List.filter_cons]
      cases h : (f.type == t) <;> simp [h]

/-- C8: the report grouping maps each category to exactly the subsequence
of input findings with that category, in arrival order and without
deduplication. -/
theorem report_groups_by_type (fs : List Finding) (t : String) :
    generate_report_by_type fs t = fs.filter (fun f => f.type == t) := by
  unfold generate_report_by_type
  rw [groups_foldl_eq]
  rfl

/-- C9: when the Terraform path holds `.tf` files and `os.chdir`
succeeds, a run of the validator's `main` leaves the working directory
changed to the (absolute) Terraform path, never restores it, and every
later relative path of the same run — the Ansible enumeration, the
Kubernetes enumeration, and a relative `--json-output` file — resolves
against the Terraform path instead of the original working directory. -/
theorem terraform_chdir_leaks_into_later_paths
    (tfPath aPath kPath jsonOut initCwd : String)
    (tfFiles : List TfFile) (env : TfEnv) (kms : List KManifest) (tr : RunTrace)
    (habs : strStarts tfPath "/" = true)
    (hne : tfFiles.isEmpty = false)
    (hch : env.chdirOk = true)
    (hrel1 : strStarts aPath "/" = false)
    (hrel2 : strStarts kPath "/" = false)
    (hrel3 : strStarts jsonOut "/" = false)
    (hrun : mainRun tfPath aPath kPath jsonOut tfFiles env kms initCwd
      = Except.ok tr) :
    tr.finalCwd = tfPath
    ∧ tr.ansibleDir = tfPath ++ "/" ++ aPath
    ∧ tr.k8sDir = tfPath ++ "/" ++ kPath
    ∧ tr.jsonOutFile = tfPath ++ "/" ++ jsonOut := by
  unfold mainRun at hrun
  obtain ⟨⟨st1, s⟩, hvt, hrun⟩ := except_bind_ok hrun
  have hcwd : st1.cwd = tfPath := by
    rw [validate_terraform_cwd tfPath tfFiles env _ st1 s hne hch hvt]
    unfold resolvePath ValRun.init
    rw [habs]
    simp
  simp only [Except.ok.injEq] at hrun
  subst hrun
  simp only [hcwd]
  unfold resolvePath
  rw [hrel1, hrel2, hrel3]
  simp

/-- The main-run trace of the C9 witness input. -/
def exampleTrace : RunTrace :=
  { ansibleDir := "/infra/tf/playbooks", k8sDir := "/infra/tf/k8s",
    jsonOutFile := "/infra/tf/report.json", finalCwd := "/infra/tf" }

/-- C9 witness: a concrete run starting in `/home/op` with one readable
`.tf` file under the absolute Terraform path `/infra/tf` resolves all
later relative paths under `/infra/tf`. -/
theorem terraform_chdir_leaks_witness :
    exampleTrace.finalCwd = "/infra/tf"
    ∧ exampleTrace.ansibleDir = "/infra/tf" ++ "/" ++ "playbooks"
    ∧ exampleTrace.k8sDir = "/infra/tf" ++ "/" ++ "k8s"
    ∧ exampleTrace.jsonOutFile = "/infra/tf" ++ "/" ++ "report.json" :=
  terraform_chdir_leaks_into_later_paths "/infra/tf" "playbooks" "k8s"
    "report.json" "/home/op"
    [⟨"main.tf", Except.ok "backend required_providers tags"⟩]
    ⟨some true, true, Except.ok true⟩ [] exampleTrace
    rfl rfl rfl rfl rfl rfl (by decide)

/-- C10: a workload document declaring an empty container list passes the
resource-limits and health-checks checks (an `all` over no containers is
vacuously true) while the `any`-quantified security-context check records
a warning. -/
theorem empty_containers_checks (mname k : String) (mdName : Option String)
    (hmem : k ∈ workloadKinds) :
    (validate_kubernetes [⟨mname, [⟨some k, mdName, some []⟩], none⟩]).2
      = { passed := [mname ++ ": Resource limits", mname ++ ": Health checks"],
          failed := [],
          warnings := [mname ++ ": Add security context"] } := by
  have hres : (validate_kubernetes [⟨mname, [⟨some k, mdName, some []⟩], none⟩]).2
      = validateKubernetesDoc mname ⟨some k, mdName, some []⟩ := rfl
  rw [hres]
  unfold validateKubernetesDoc
  simp [hmem, CatResults.append]

/-- C10 witness: a concrete StatefulSet document with `containers: []`. -/
theorem empty_containers_checks_witness :
    ("StatefulSet" ∈ workloadKinds)
    ∧ (validate_kubernetes
          [⟨"db.yaml", [⟨some "StatefulSet", some "db", some []⟩], none⟩]).2
      = { passed := ["db.yaml" ++ ": Resource limits",
                     "db.yaml" ++ ": Health checks"],
          failed := [],
          warnings := ["db.yaml" ++ ": Add security context"] } :=
  ⟨by decide, empty_containers_checks "db.yaml" "StatefulSet" (some "db")
    (by decide)⟩

end Sysops
